import Mathlib

/-!
Verification of the FlexDesigner SDK plugin transport
(`src/transport.ts`, `src/plugin_command.ts`).

The transport exchanges JSON envelopes over a WebSocket.  We embed the
wire values, the envelope codec (`PluginCommand.toJSON` / `fromJSON`),
and the transport state machine (`call`, `_send`, `_sendResponse`,
`_handleMessage`, the timeout closure armed by `setTimeout`, and the
`'message'` listener installed by `start`) as executable Lean
definitions, and prove the specified properties about them.

External JavaScript builtins are modelled by explicit parameters:
`Date.now()` becomes a `now : Nat` argument, `uuidv4()` a fresh-string
argument, `JSON.parse` is represented by handing `_handleMessage` its
outcome (`none` when the parse throws), and a throwing `ws.send` by an
`Option String` argument carrying the thrown error.
-/

mutual
/-- JSON-representable wire values (payloads are arbitrary structured
data, opaque to the transport). -/
inductive JValue where
  | null : JValue
  | bool : Bool → JValue
  | num : Int → JValue
  | str : String → JValue
  | arr : JArr → JValue
  | obj : JObj → JValue

/-- A JSON array (list of wire values). -/
inductive JArr where
  | nil : JArr
  | cons : JValue → JArr → JArr

/-- A JSON object (ordered key/value fields). -/
inductive JObj where
  | nil : JObj
  | cons : String → JValue → JObj → JObj
end

deriving instance DecidableEq for JValue

mutual
/-- Model of `JSON.stringify` on wire values, used to build the timeout
diagnostic message (string escaping limited to quote and backslash). -/
def JValue.stringify : JValue → String
  | .null => "null"
  | .bool true => "true"
  | .bool false => "false"
  | .num n => toString n
  | .str s =>
      "\"" ++ String.mk (s.data.flatMap fun c =>
        if c = '"' ∨ c = '\\' then ['\\', c] else [c]) ++ "\""
  | .arr xs => "[" ++ JArr.stringifyItems xs ++ "]"
  | .obj fs => "\x7b" ++ JObj.stringifyFields fs ++ "\x7d"

/-- Comma-separated serialization of array elements. -/
def JArr.stringifyItems : JArr → String
  | .nil => ""
  | .cons v .nil => v.stringify
  | .cons v tl => v.stringify ++ "," ++ JArr.stringifyItems tl

/-- Comma-separated serialization of object fields. -/
def JObj.stringifyFields : JObj → String
  | .nil => ""
  | .cons k v .nil => "\"" ++ k ++ "\":" ++ v.stringify
  | .cons k v tl => "\"" ++ k ++ "\":" ++ v.stringify ++ "," ++ JObj.stringifyFields tl
end

example : (JValue.obj (.cons "pluginID" (.str "p") .nil)).stringify
    = "\x7b\"pluginID\":\"p\"\x7d" := by rfl

example : (JValue.obj .nil).stringify = "\x7b\x7d" := by rfl

/-! ## Envelope codec (`src/plugin_command.ts`)

`PluginCommand` fields mirror the class declaration.  JavaScript `null`
and `undefined` on the `error` field are both modelled as `none`. -/

/-- The `PluginCommand` class of `plugin_command.ts`. -/
structure PluginCommand where
  pluginID : String
  type : String
  payload : JValue
  timestamp : Nat
  uuid : String
  status : String
  error : Option String
deriving DecidableEq

/-- The `PluginCommand` constructor.  Optional JS arguments are `Option`s:
`uuid` defaults to a fresh `uuidv4()` (the `freshUuid` argument), `status`
defaults to `"pending"`, `error` defaults to `null`.  `this.timestamp =
Date.now()` is the `now` argument. -/
def PluginCommand.make (pluginID ty : String) (payload : JValue)
    (uuid : Option String) (status : Option String) (error : Option String)
    (now : Nat) (freshUuid : String) : PluginCommand :=
  { pluginID := pluginID
    type := ty
    payload := payload
    timestamp := now
    uuid := uuid.getD freshUuid
    status := status.getD "pending"
    error := error }

/-- The JSON object literal returned by `PluginCommand.toJSON` (exactly
the seven fields listed there).  `JSON.stringify` of this record followed
by `JSON.parse` on the receiving side is the identity on it, so the text
frame itself is modelled away. -/
structure CommandJSON where
  pluginID : String
  type : String
  payload : JValue
  timestamp : Nat
  uuid : String
  status : String
  error : Option String
deriving DecidableEq

/-- `PluginCommand.toJSON`: encodes the command to its JSON form. -/
def PluginCommand.toJSON (c : PluginCommand) : CommandJSON :=
  { pluginID := c.pluginID
    type := c.type
    payload := c.payload
    timestamp := c.timestamp
    uuid := c.uuid
    status := c.status
    error := c.error }

/-- `PluginCommand.fromJSON`: `new PluginCommand(obj.pluginID, obj.type,
obj.payload, obj.uuid, obj.status, obj.error)` — the constructor runs
again at decode time `now` (with a fresh uuid available for its default,
unused here since `obj.uuid` is present). -/
def PluginCommand.fromJSON (obj : CommandJSON) (now : Nat)
    (freshUuid : String) : PluginCommand :=
  PluginCommand.make obj.pluginID obj.type obj.payload
    (some obj.uuid) (some obj.status) obj.error now freshUuid

/-! ## Transport state (`src/transport.ts`)

The `Command` interface of `transport.ts` has every field optional; an
inbound frame produced by `JSON.parse` may lack any of them.  `none`
stands for a missing (`undefined`) field.  Outbound frames are the
object literals built in `_send` / `_sendResponse`, also with absent
fields as `none`. -/

/-- A wire frame: the `Command` interface of `transport.ts` (all fields
optional on the wire). -/
structure Cmd where
  uuid : Option String
  pluginID : Option String
  type : Option String
  payload : Option JValue
  timestamp : Option Nat
  status : Option String
  error : Option String
deriving DecidableEq

/-- JavaScript property lookup with a possibly-`undefined` key: a missing
key is coerced to the string `"undefined"`. -/
def jsKey : Option String → String
  | some s => s
  | none => "undefined"

/-- JavaScript `x || default` on an optional string: `undefined`, `null`
and the empty string are falsy. -/
def jsOrElse (o : Option String) (d : String) : String :=
  match o with
  | some s => if s = "" then d else s
  | none => d

/-- The `setTimeout` closure armed by `call` captures the request's
`uuid`, `command` and `payload`, and carries the delay passed to
`setTimeout`. -/
structure Timer where
  delay : Int
  uuid : String
  command : String
  payload : JValue
deriving DecidableEq

/-- A pending-calls table entry `{resolve, reject, timer}`.  The
completion callbacks are identified by the entry's key; only the timer is
data. -/
structure PendingEntry where
  timer : Option Timer
deriving DecidableEq

/-- A registered handler: receives `cmd.payload` (possibly `undefined`),
and either returns a result (possibly `undefined`) or throws/rejects with
an error message. -/
def Handler : Type := Option JValue → Except String (Option JValue)

/-- Association-list lookup, modelling JS object property access. -/
def lookupA {α : Type} : List (String × α) → String → Option α
  | [], _ => none
  | (k, v) :: rest, key => if k = key then some v else lookupA rest key

/-- Association-list removal, modelling JS `delete obj[key]`. -/
def eraseA {α : Type} (l : List (String × α)) (key : String) :
    List (String × α) :=
  l.filter (fun p => p.1 ≠ key)

/-- Association-list update, modelling JS property assignment. -/
def setA {α : Type} (l : List (String × α)) (key : String) (v : α) :
    List (String × α) :=
  (key, v) :: eraseA l key

/-- The mutable state of a `PluginTransport` instance: its own plugin
uuid, the `handlers` map and the `pendingCalls` table. -/
structure TransportState where
  uuid : String
  handlers : List (String × Handler)
  pendingCalls : List (String × PendingEntry)

/-- The frame built by `_send`: the object literal `{pluginID, type,
payload, timestamp, uuid}` — note that it carries no `status` and no
`error` field. -/
def sendCmd (pluginID command : String) (payload : JValue)
    (msgUuid : String) (now : Nat) : Cmd :=
  { pluginID := some pluginID
    type := some command
    payload := some payload
    timestamp := some now
    uuid := some msgUuid
    status := none
    error := none }

/-- The frame built by `_sendResponse`: the object literal `{pluginID,
type: "response", payload: result, timestamp, uuid, status}`. -/
def sendResponseCmd (pluginID : String) (uuid : Option String)
    (result : Option JValue) (status : String) (now : Nat) : Cmd :=
  { pluginID := some pluginID
    type := some "response"
    payload := result
    timestamp := some now
    uuid := uuid
    status := some status
    error := none }

/-- What `PluginTransport.call` did, besides returning its promise. -/
structure CallResult where
  state : TransportState
  /-- Frames written to the socket. -/
  outbound : List Cmd
  /-- `some e` iff the promise executor threw, i.e. the returned promise
  is already rejected with `e`. -/
  rejectedWith : Option String
  /-- The uuid of the registered pending call, when registration
  happened. -/
  registeredUuid : Option String

/-- `PluginTransport.call(command, payload, timeout)`.  `msgUuid` is the
`uuidv4()` drawn inside `_send`, `now` is `Date.now()`, and `sendErr`
models `this.ws.send`: `some e` when the socket write throws `e` (for
example `ws` is `null` or closed).  The code runs `_send` first; only
after it returns does it arm the timer (when `timeout > 0`) and store the
pending entry. -/
def call (st : TransportState) (command : String) (payload : JValue)
    (timeout : Int) (msgUuid : String) (now : Nat)
    (sendErr : Option String) : CallResult :=
  match sendErr with
  | some e =>
      { state := st, outbound := [], rejectedWith := some e,
        registeredUuid := none }
  | none =>
      let timer : Option Timer :=
        if timeout > 0 then
          some { delay := timeout, uuid := msgUuid, command := command,
                 payload := payload }
        else none
      { state := { st with
          pendingCalls := setA st.pendingCalls msgUuid { timer := timer } }
        outbound := [sendCmd st.uuid command payload msgUuid now]
        rejectedWith := none
        registeredUuid := some msgUuid }

/-- The startup frame sent from the `'open'` listener in `start`:
`this._send('startup', { pluginID: this.uuid })`. -/
def startupSend (st : TransportState) (msgUuid : String) (now : Nat) : Cmd :=
  sendCmd st.uuid "startup"
    (JValue.obj (.cons "pluginID" (.str st.uuid) .nil)) msgUuid now

/-- Firing the `setTimeout` closure armed by `call`: it deletes the
pending entry for the captured uuid and rejects the promise with the
timeout message naming the captured command and payload. -/
def fireTimeout (st : TransportState) (t : Timer) :
    TransportState × String :=
  ({ st with pendingCalls := eraseA st.pendingCalls t.uuid },
   "Request timed out, command: " ++ t.command ++ ", payload: "
     ++ t.payload.stringify)

/-- How a pending call's promise was settled by `_handleMessage`. -/
inductive Completion where
  | resolve : Option JValue → Completion
  | reject : String → Completion
deriving DecidableEq

/-- Everything `_handleMessage` did on one inbound frame. -/
structure HandleResult where
  state : TransportState
  /-- Frames written to the socket. -/
  outbound : List Cmd
  /-- Pending calls settled, as `(table key, settlement)`. -/
  completions : List (String × Completion)
  /-- Timers passed to `clearTimeout`. -/
  clearedTimers : List Timer
  /-- `some e` iff the `async` method's promise rejected with `e` (a
  handler threw); caught by the `'message'` listener's `.catch`. -/
  thrown : Option String
  /-- Whether the `Invalid message format` branch logged and returned. -/
  invalidLogged : Bool

/-- `PluginTransport._handleMessage(msg)`.  `parsed` is the outcome of
`JSON.parse(msg)` (`none` when it throws).  First a pending call lookup
on `cmd.uuid`; when it hits, the timer (if any) is cleared, the entry is
deleted, and the promise is resolved with `cmd.payload` on
`status === 'success'` and rejected otherwise (the parsed object's
`toString()` is the JS default `[object Object]`).  Otherwise the handler
registered for `cmd.type`, if any, is awaited and its result is sent
back via `_sendResponse(cmd.uuid, result)` with status `"success"`; a
handler that throws makes the method's promise reject. -/
def handleMessage (st : TransportState) (parsed : Option Cmd)
    (now : Nat) : HandleResult :=
  match parsed with
  | none =>
      { state := st, outbound := [], completions := [],
        clearedTimers := [], thrown := none, invalidLogged := true }
  | some cmd =>
      let key := jsKey cmd.uuid
      match lookupA st.pendingCalls key with
      | some entry =>
          let comp :=
            if cmd.status = some "success" then
              Completion.resolve cmd.payload
            else
              Completion.reject ("Request failed: "
                ++ jsOrElse cmd.error "Unknown error"
                ++ ", Command: [object Object]")
          { state := { st with pendingCalls := eraseA st.pendingCalls key }
            outbound := []
            completions := [(key, comp)]
            clearedTimers := entry.timer.toList
            thrown := none
            invalidLogged := false }
      | none =>
          match lookupA st.handlers (jsKey cmd.type) with
          | some h =>
              match h cmd.payload with
              | .ok result =>
                  { state := st
                    outbound :=
                      [sendResponseCmd st.uuid cmd.uuid result "success" now]
                    completions := []
                    clearedTimers := []
                    thrown := none
                    invalidLogged := false }
              | .error e =>
                  { state := st, outbound := [], completions := [],
                    clearedTimers := [], thrown := some e,
                    invalidLogged := false }
          | none =>
              { state := st, outbound := [], completions := [],
                clearedTimers := [], thrown := none,
                invalidLogged := false }

/-- One inbound message, as seen by the `'message'` listener installed in
`start`: the parse outcome of the frame together with the `Date.now()`
value at handling time. -/
structure InboundMsg where
  parsed : Option Cmd
  now : Nat

/-- The `'message'` listener: `this._handleMessage(msg).catch(err =>
logger.error(...))`.  A rejection of `_handleMessage` is caught and
logged; it never escapes the listener. -/
def receiveMessage (st : TransportState) (m : InboundMsg) :
    TransportState × List Cmd × List (String × Completion) × Option String :=
  let r := handleMessage st m.parsed m.now
  (r.state, r.outbound, r.completions, r.thrown)

/-- The receive loop: every socket frame is delivered to the `'message'`
listener in order; since the listener catches rejections, processing
always continues with the next frame.  Returns the final state together
with all outbound frames and all settlements. -/
def runLoop (st : TransportState) :
    List InboundMsg → TransportState × List Cmd × List (String × Completion)
  | [] => (st, [], [])
  | m :: rest =>
      let r := handleMessage st m.parsed m.now
      let (st', outs, comps) := runLoop r.state rest
      (st', r.outbound ++ outs, r.completions ++ comps)

/-! ## Table lemmas -/

theorem eraseA_cons {α : Type} (k : String) (v : α)
    (rest : List (String × α)) (key : String) :
    eraseA ((k, v) :: rest) key
      = if k = key then eraseA rest key else (k, v) :: eraseA rest key := by
  by_cases hk : k = key <;> simp [eraseA, hk]

theorem lookupA_setA_self {α : Type} (l : List (String × α)) (key : String)
    (v : α) : lookupA (setA l key v) key = some v := by
  simp [lookupA, setA]

theorem lookupA_eraseA_self {α : Type} (l : List (String × α))
    (key : String) : lookupA (eraseA l key) key = none := by
  induction l with
  | nil => rfl
  | cons p rest ih =>
      obtain ⟨k, v⟩ := p
      rw [eraseA_cons]
      by_cases hk : k = key
      · rw [if_pos hk]; exact ih
      · rw [if_neg hk]; simpa [lookupA, hk] using ih

theorem lookupA_eraseA_ne {α : Type} (l : List (String × α))
    (key other : String) (h : other ≠ key) :
    lookupA (eraseA l key) other = lookupA l other := by
  induction l with
  | nil => rfl
  | cons p rest ih =>
      obtain ⟨k, v⟩ := p
      rw [eraseA_cons]
      by_cases hk : k = key
      · rw [if_pos hk, ih]
        have hko : k ≠ other := fun hh => h (hk ▸ hh.symm)
        simp [lookupA, hko]
      · rw [if_neg hk]
        by_cases ho : k = other
        · simp [lookupA, ho]
        · simpa [lookupA, ho] using ih

theorem lookupA_setA_ne {α : Type} (l : List (String × α))
    (key other : String) (v : α) (h : other ≠ key) :
    lookupA (setA l key v) other = lookupA l other := by
  have hko : key ≠ other := fun hh => h hh.symm
  rw [setA]
  simpa [lookupA, hko] using lookupA_eraseA_ne l key other h

/-! ## Concrete fixtures used by counterexamples and witnesses -/

/-- A handler that throws (rejects) with the message `"boom"`. -/
def throwingHandler : Handler := fun _ => .error "boom"

/-- A handler that returns the string `"done"` normally. -/
def okHandler : Handler := fun _ => .ok (some (.str "done"))

/-- A sample `PluginCommand` created at time `0`. -/
def sampleCommand : PluginCommand :=
  { pluginID := "p", type := "ping", payload := .obj .nil, timestamp := 0,
    uuid := "u", status := "pending", error := none }

/-- A transport whose only registration is a throwing handler for
`"evt"`. -/
def throwingState : TransportState :=
  { uuid := "plugin-1", handlers := [("evt", throwingHandler)],
    pendingCalls := [] }

/-- An inbound `"evt"` frame with id `"m1"`. -/
def evtCmd : Cmd :=
  { uuid := some "m1", pluginID := none, type := some "evt",
    payload := some (.obj .nil), timestamp := some 5, status := none,
    error := none }

/-- A transport with an ok handler for `"evt"` and nothing pending. -/
def okState : TransportState :=
  { uuid := "plugin-1", handlers := [("evt", okHandler)],
    pendingCalls := [] }

/-- An inbound frame that carries a type but no id. -/
def noIdCmd : Cmd :=
  { uuid := none, pluginID := none, type := some "evt", payload := none,
    timestamp := none, status := none, error := none }

/-- The armed timer of the sample pending call `"m7"`. -/
def sampleTimer : Timer :=
  { delay := 5000, uuid := "m7", command := "ping", payload := .obj .nil }

/-- A transport with one pending call `"m7"` whose timer is armed. -/
def pendingState : TransportState :=
  { uuid := "plugin-1"
    handlers := []
    pendingCalls := [("m7", { timer := some sampleTimer })] }

/-- A successful reply to `"m7"`. -/
def successReply : Cmd :=
  { uuid := some "m7", pluginID := none, type := some "response",
    payload := some (.str "pong"), timestamp := some 9,
    status := some "success", error := none }

/-- A reply to an id nobody is waiting for. -/
def strayReply : Cmd :=
  { uuid := some "zz", pluginID := none, type := some "response",
    payload := some (.str "late"), timestamp := some 9,
    status := some "success", error := none }

/-- When the inbound frame matches no pending call, `_handleMessage`
settles nothing and leaves the pending-calls table untouched (every
remaining branch only reads it). -/
theorem handleMessage_no_pending (st : TransportState) (cmd : Cmd)
    (now : Nat) (hp : lookupA st.pendingCalls (jsKey cmd.uuid) = none) :
    (handleMessage st (some cmd) now).completions = [] ∧
    (handleMessage st (some cmd) now).state.pendingCalls = st.pendingCalls := by
  cases hh : lookupA st.handlers (jsKey cmd.type) with
  | none => simp [handleMessage, hp, hh]
  | some h =>
      cases hr : h cmd.payload with
      | ok r => simp [handleMessage, hp, hh, hr]
      | error e => simp [handleMessage, hp, hh, hr]

/-! ## Claim theorems -/

/-- C2 as stated is false: the encode/decode round trip does not preserve
the `timestamp` field.  `fromJSON` re-runs the `PluginCommand`
constructor, whose `this.timestamp = Date.now()` overwrites the encoded
timestamp with the decode-time clock.  Concretely, a command stamped `0`
decoded at time `1` comes back with timestamp `1`. -/
theorem roundtrip_counterexample :
    PluginCommand.fromJSON (PluginCommand.toJSON sampleCommand) 1 "fresh"
      ≠ sampleCommand ∧
    (PluginCommand.fromJSON (PluginCommand.toJSON sampleCommand) 1
      "fresh").timestamp = 1 ∧
    sampleCommand.timestamp = 0 := by
  refine ⟨?_, rfl, rfl⟩
  intro h
  have := congrArg PluginCommand.timestamp h
  simp [PluginCommand.fromJSON, PluginCommand.toJSON, PluginCommand.make,
    sampleCommand] at this

/-- C2 amended: the round trip through `toJSON` then `fromJSON` preserves
`pluginID`, `type`, `payload`, `uuid`, `status` and `error` exactly, and
replaces `timestamp` with the decode-time clock. -/
theorem roundtrip_preserves_all_but_timestamp (c : PluginCommand)
    (now : Nat) (fresh : String) :
    PluginCommand.fromJSON (PluginCommand.toJSON c) now fresh
      = { c with timestamp := now } := rfl

/-- C5: the request frame emitted by `call` (via `_send`) carries `id`
(`uuid`), `type`, `payload` (plus `pluginID` and `timestamp`) but no
`status` field at all — `_send`'s object literal never sets `status`, so
the wire-format requirement `status: "pending"` is not met.  The startup
send built from the same `_send` also has no `status`. -/
theorem request_carries_no_status :
    (call okState "ping" (.obj .nil) 5000 "u1" 7 none).outbound
      = [{ uuid := some "u1", pluginID := some "plugin-1",
           type := some "ping", payload := some (.obj .nil),
           timestamp := some 7, status := none, error := none }] ∧
    (startupSend okState "u2" 3).status = none := ⟨rfl, rfl⟩

/-- C10: when the socket write inside `call` throws (e.g. `ws` is `null`
because `start` never ran, or the connection is closed), the exception
escapes the promise executor, so the returned promise rejects with that
error; the pending-calls table is untouched and no timer is armed,
because `_send` runs before the entry is registered. -/
theorem call_send_failure_no_registration (st : TransportState)
    (command : String) (payload : JValue) (T : Int) (msgUuid : String)
    (now : Nat) (e : String) :
    call st command payload T msgUuid now (some e)
      = { state := st, outbound := [], rejectedWith := some e,
          registeredUuid := none } := rfl

/-- C1 as stated is false: a handler that throws produces no reply
envelope at all.  `_handleMessage` does not wrap the handler in
`try`/`catch`, so the rejection skips `_sendResponse` and is caught only
by the `'message'` listener's logging `.catch`.  Concretely, a throwing
`"evt"` handler yields zero outbound frames and a rejected
`_handleMessage` promise. -/
theorem handler_failure_counterexample :
    (handleMessage throwingState (some evtCmd) 6).outbound = [] ∧
    (handleMessage throwingState (some evtCmd) 6).thrown = some "boom" := by
  exact ⟨rfl, rfl⟩

/-- C1 amended: when a registered handler throws or rejects, no reply
envelope is sent; the rejection escapes `_handleMessage`, is caught and
logged by the `'message'` listener's `.catch`, leaves the transport state
unchanged, and never terminates the message-receive loop (the loop on the
remaining frames proceeds exactly as if the frame had not arrived). -/
theorem handler_failure_logged_not_replied (st : TransportState)
    (cmd : Cmd) (now : Nat) (h : Handler) (e : String)
    (hp : lookupA st.pendingCalls (jsKey cmd.uuid) = none)
    (hh : lookupA st.handlers (jsKey cmd.type) = some h)
    (he : h cmd.payload = .error e) :
    (handleMessage st (some cmd) now).outbound = [] ∧
    (handleMessage st (some cmd) now).thrown = some e ∧
    (handleMessage st (some cmd) now).state = st ∧
    (receiveMessage st { parsed := some cmd, now := now }).2.2.2 = some e ∧
    ∀ rest, runLoop st ({ parsed := some cmd, now := now } :: rest)
      = runLoop st rest := by
  have hmsg : handleMessage st (some cmd) now
      = { state := st, outbound := [], completions := [],
          clearedTimers := [], thrown := some e, invalidLogged := false } := by
    simp [handleMessage, hp, hh, he]
  refine ⟨by rw [hmsg], by rw [hmsg], by rw [hmsg], ?_, ?_⟩
  · simp [receiveMessage, hmsg]
  · intro rest
    simp [runLoop, hmsg]

/-- C1 witness: the amended theorem applied to the concrete throwing
handler. -/
theorem handler_failure_logged_not_replied_witness :
    (handleMessage throwingState (some evtCmd) 6).outbound = [] ∧
    (handleMessage throwingState (some evtCmd) 6).thrown = some "boom" ∧
    (handleMessage throwingState (some evtCmd) 6).state = throwingState ∧
    (receiveMessage throwingState
      { parsed := some evtCmd, now := 6 }).2.2.2 = some "boom" ∧
    ∀ rest, runLoop throwingState
        ({ parsed := some evtCmd, now := 6 } :: rest)
      = runLoop throwingState rest :=
  handler_failure_logged_not_replied throwingState evtCmd 6 throwingHandler
    "boom" rfl rfl rfl

/-- C6 as stated is false: a well-formed frame that lacks a usable id is
not treated as a decode error and is not dropped — it falls through to
handler dispatch.  Concretely, a frame with no `uuid` but type `"evt"`
invokes the registered handler and a reply frame (echoing the missing id
as absent) goes out on the wire. -/
theorem decode_failure_counterexample :
    (handleMessage okState (some noIdCmd) 0).outbound
      = [sendResponseCmd "plugin-1" none (some (.str "done")) "success" 0]
      := by
  exact rfl

/-- C6 amended: decoding fails exactly when `JSON.parse` throws (the
frame is not well-formed JSON); in that case the frame is logged and
dropped with no reply sent, no pending call completed, no handler
invoked, no state change and no crash, and the receive loop continues
with the remaining frames.  A well-formed frame lacking `id`/`type` is
*not* a decode failure and is dispatched like any other frame. -/
theorem malformed_frame_logged_and_dropped (st : TransportState)
    (now : Nat) :
    handleMessage st none now
      = { state := st, outbound := [], completions := [],
          clearedTimers := [], thrown := none, invalidLogged := true } ∧
    ∀ rest, runLoop st ({ parsed := none, now := now } :: rest)
      = runLoop st rest := by
  refine ⟨rfl, fun rest => ?_⟩
  simp [runLoop, handleMessage]

/-- C7: a reply frame (type `"response"`) whose id matches no pending
call — duplicate, late after timeout, or spurious — is discarded with no
effect whatsoever: no completion, no outbound frame, no timer touched, no
state change, no rejection escaping to the receive loop.  The hypotheses
are the operating invariant that `"response"` is reserved for replies and
never has a registered handler. -/
theorem unknown_reply_discarded (st : TransportState) (cmd : Cmd)
    (now : Nat) (htype : cmd.type = some "response")
    (hp : lookupA st.pendingCalls (jsKey cmd.uuid) = none)
    (hh : lookupA st.handlers "response" = none) :
    handleMessage st (some cmd) now
      = { state := st, outbound := [], completions := [],
          clearedTimers := [], thrown := none, invalidLogged := false } := by
  have hjt : jsKey cmd.type = "response" := by rw [htype]; rfl
  simp [handleMessage, hp, hjt, hh]

/-- C7 witness: a stray success reply to the unknown id `"zz"` on a
transport with one unrelated pending call. -/
theorem unknown_reply_discarded_witness :
    handleMessage pendingState (some strayReply) 9
      = { state := pendingState, outbound := [], completions := [],
          clearedTimers := [], thrown := none, invalidLogged := false } :=
  unknown_reply_discarded pendingState strayReply 9 rfl rfl rfl

/-- C4: a reply arriving for an outstanding call before its timeout
clears the entry's timer (when armed), evicts the entry, sends nothing
out, resolves the call with exactly the reply's payload on
`status = "success"`, and on `status = "error"` rejects it with a message
carrying the remote-supplied error text. -/
theorem reply_completes_pending_call (st : TransportState) (cmd : Cmd)
    (now : Nat) (entry : PendingEntry)
    (hp : lookupA st.pendingCalls (jsKey cmd.uuid) = some entry) :
    (handleMessage st (some cmd) now).clearedTimers = entry.timer.toList ∧
    lookupA (handleMessage st (some cmd) now).state.pendingCalls
      (jsKey cmd.uuid) = none ∧
    (handleMessage st (some cmd) now).outbound = [] ∧
    (cmd.status = some "success" →
      (handleMessage st (some cmd) now).completions
        = [(jsKey cmd.uuid, Completion.resolve cmd.payload)]) ∧
    (∀ e, cmd.status = some "error" → cmd.error = some e → e ≠ "" →
      (handleMessage st (some cmd) now).completions
        = [(jsKey cmd.uuid, Completion.reject
            ("Request failed: " ++ e ++ ", Command: [object Object]"))]) := by
  refine ⟨?_, ?_, ?_, ?_, ?_⟩
  · simp [handleMessage, hp]
  · simp [handleMessage, hp, lookupA_eraseA_self]
  · simp [handleMessage, hp]
  · intro hs
    simp [handleMessage, hp, hs]
  · intro e hs he hne
    simp [handleMessage, hp, hs, he, jsOrElse, hne]

/-- C4 witness: the success reply `"m7"` resolves the sample pending
call with the reply payload, clears its armed timer and evicts the
entry. -/
theorem reply_completes_pending_call_witness :
    (handleMessage pendingState (some successReply) 9).clearedTimers
      = [sampleTimer] ∧
    lookupA (handleMessage pendingState
      (some successReply) 9).state.pendingCalls "m7" = none ∧
    (handleMessage pendingState (some successReply) 9).outbound = [] ∧
    (handleMessage pendingState (some successReply) 9).completions
      = [("m7", Completion.resolve (some (.str "pong")))] := by
  have h := reply_completes_pending_call pendingState successReply 9
    { timer := some sampleTimer } rfl
  exact ⟨h.1, h.2.1, h.2.2.1, h.2.2.2.1 rfl⟩

/-- The timer armed by the witness call `call(.., "slow", .., 100)`. -/
def slowTimer : Timer :=
  { delay := 100, uuid := "u1", command := "slow", payload := .obj .nil }

/-- A reply to `"u1"` arriving only after the timeout fired. -/
def lateReply : Cmd :=
  { uuid := some "u1", pluginID := none, type := some "response",
    payload := some (.str "late"), timestamp := some 999,
    status := some "success", error := none }

/-- C3: a `call` with timeout `T > 0` arms a timer with delay exactly
`T` capturing the command and payload; when it fires, the caller's
promise is rejected with a message naming the original command type and
the stringified payload, and the entry is gone from the table; a reply
carrying that id afterwards settles nothing and leaves the table
unchanged. -/
theorem call_timeout_evicts_and_late_reply_dropped (st : TransportState)
    (command : String) (payload : JValue) (T : Int) (msgUuid : String)
    (now : Nat) (hT : T > 0) :
    let armed : Timer :=
      { delay := T, uuid := msgUuid, command := command, payload := payload }
    let afterCall := (call st command payload T msgUuid now none).state
    let afterFire := (fireTimeout afterCall armed).1
    lookupA afterCall.pendingCalls msgUuid = some { timer := some armed } ∧
    (fireTimeout afterCall armed).2
      = "Request timed out, command: " ++ command ++ ", payload: "
        ++ payload.stringify ∧
    lookupA afterFire.pendingCalls msgUuid = none ∧
    ∀ (cmd : Cmd) (laterNow : Nat), jsKey cmd.uuid = msgUuid →
      (handleMessage afterFire (some cmd) laterNow).completions = [] ∧
      (handleMessage afterFire (some cmd) laterNow).state.pendingCalls
        = afterFire.pendingCalls := by
  intro armed afterCall afterFire
  have hcall : afterCall.pendingCalls
      = setA st.pendingCalls msgUuid { timer := some armed } := by
    simp [afterCall, call, hT]
  have hfire : afterFire.pendingCalls
      = eraseA afterCall.pendingCalls msgUuid := rfl
  have hnone : lookupA afterFire.pendingCalls msgUuid = none := by
    rw [hfire]; exact lookupA_eraseA_self _ _
  refine ⟨?_, rfl, hnone, ?_⟩
  · rw [hcall]; exact lookupA_setA_self _ _ _
  · intro cmd laterNow hkey
    exact handleMessage_no_pending afterFire cmd laterNow (by rw [hkey]; exact hnone)

/-- C3 witness: `call("slow", {}, 100)` then the timer firing, then the
late reply. -/
theorem call_timeout_witness :
    lookupA (call okState "slow" (.obj .nil) 100 "u1" 0
        none).state.pendingCalls "u1" = some { timer := some slowTimer } ∧
    (fireTimeout (call okState "slow" (.obj .nil) 100 "u1" 0 none).state
        slowTimer).2
      = "Request timed out, command: " ++ "slow" ++ ", payload: "
        ++ (JValue.obj .nil).stringify ∧
    lookupA (fireTimeout (call okState "slow" (.obj .nil) 100 "u1" 0
        none).state slowTimer).1.pendingCalls "u1" = none ∧
    (handleMessage (fireTimeout (call okState "slow" (.obj .nil) 100 "u1"
        0 none).state slowTimer).1 (some lateReply) 999).completions
      = [] := by
  have h := call_timeout_evicts_and_late_reply_dropped okState "slow"
    (.obj .nil) 100 "u1" 0 (by decide)
  exact ⟨h.1, h.2.1, h.2.2.1, (h.2.2.2 lateReply 999 rfl).1⟩

/-- C8 as stated is false in its "exactly one success reply" clause: when
the registered handler throws, the inbound command produces no reply at
all even though a handler for its type is registered and no pending call
matches. -/
theorem one_reply_counterexample :
    (lookupA throwingState.handlers "evt").isSome = true ∧
    lookupA throwingState.pendingCalls "m1" = none ∧
    (handleMessage throwingState (some evtCmd) 0).outbound = [] := by
  exact ⟨rfl, rfl, rfl⟩

/-- C8 amended: every inbound frame produces at most one outbound reply;
exactly one success reply goes out when a handler for the type is
registered, no pending call matches, and the handler completes normally;
no frame goes out when the handler throws, or when the type is
unregistered and no pending call matches. -/
theorem at_most_one_reply (st : TransportState) (parsed : Option Cmd)
    (now : Nat) :
    (handleMessage st parsed now).outbound.length ≤ 1 ∧
    (∀ (cmd : Cmd) (h : Handler) (r : Option JValue), parsed = some cmd →
      lookupA st.pendingCalls (jsKey cmd.uuid) = none →
      lookupA st.handlers (jsKey cmd.type) = some h →
      h cmd.payload = .ok r →
      (handleMessage st parsed now).outbound
        = [sendResponseCmd st.uuid cmd.uuid r "success" now]) ∧
    (∀ (cmd : Cmd) (h : Handler) (e : String), parsed = some cmd →
      lookupA st.pendingCalls (jsKey cmd.uuid) = none →
      lookupA st.handlers (jsKey cmd.type) = some h →
      h cmd.payload = .error e →
      (handleMessage st parsed now).outbound = []) ∧
    (∀ (cmd : Cmd), parsed = some cmd →
      lookupA st.pendingCalls (jsKey cmd.uuid) = none →
      lookupA st.handlers (jsKey cmd.type) = none →
      (handleMessage st parsed now).outbound = []) := by
  refine ⟨?_, ?_, ?_, ?_⟩
  · cases parsed with
    | none => simp [handleMessage]
    | some cmd =>
        cases hp : lookupA st.pendingCalls (jsKey cmd.uuid) with
        | some entry => simp [handleMessage, hp]
        | none =>
            cases hh : lookupA st.handlers (jsKey cmd.type) with
            | none => simp [handleMessage, hp, hh]
            | some h =>
                cases hr : h cmd.payload with
                | ok r => simp [handleMessage, hp, hh, hr]
                | error e => simp [handleMessage, hp, hh, hr]
  · rintro cmd h r rfl hp hh hr
    simp [handleMessage, hp, hh, hr]
  · rintro cmd h e rfl hp hh hr
    simp [handleMessage, hp, hh, hr]
  · rintro cmd rfl hp hh
    simp [handleMessage, hp, hh]

/-- C8 witness: a normally-returning handler on a non-pending command
yields exactly the one success reply. -/
theorem at_most_one_reply_witness :
    (handleMessage okState (some evtCmd) 0).outbound
      = [sendResponseCmd "plugin-1" (some "m1") (some (.str "done"))
          "success" 0] :=
  (at_most_one_reply okState (some evtCmd) 0).2.1 evtCmd okHandler
    (some (.str "done")) rfl rfl rfl rfl

/-- C9: a `call` with `timeout ≤ 0` registers its pending entry with a
null timer; the entry survives every inbound frame that does not carry
its id (the call never times out locally and waits indefinitely), and a
frame carrying its id settles the call — exactly one settlement — and
removes the entry. -/
theorem call_nonpositive_timeout_never_expires (st : TransportState)
    (command : String) (payload : JValue) (T : Int) (msgUuid : String)
    (now : Nat) (hT : T ≤ 0) :
    lookupA (call st command payload T msgUuid now
        none).state.pendingCalls msgUuid = some { timer := none } ∧
    (∀ (m : InboundMsg),
      (∀ cmd, m.parsed = some cmd → jsKey cmd.uuid ≠ msgUuid) →
      lookupA (handleMessage (call st command payload T msgUuid now
          none).state m.parsed m.now).state.pendingCalls msgUuid
        = some { timer := none }) ∧
    (∀ (cmd : Cmd) (laterNow : Nat), jsKey cmd.uuid = msgUuid →
      (handleMessage (call st command payload T msgUuid now none).state
          (some cmd) laterNow).completions.length = 1 ∧
      lookupA (handleMessage (call st command payload T msgUuid now
          none).state (some cmd) laterNow).state.pendingCalls msgUuid
        = none) := by
  have hTn : ¬ T > 0 := not_lt.mpr hT
  have hcall : (call st command payload T msgUuid now none).state.pendingCalls
      = setA st.pendingCalls msgUuid { timer := none } := by
    simp [call, hTn]
  have hself : lookupA (call st command payload T msgUuid now
      none).state.pendingCalls msgUuid = some { timer := none } := by
    rw [hcall]; exact lookupA_setA_self _ _ _
  refine ⟨hself, ?_, ?_⟩
  · intro m hne
    cases hm : m.parsed with
    | none => simpa [handleMessage] using hself
    | some cmd =>
        have hkey : jsKey cmd.uuid ≠ msgUuid := hne cmd hm
        cases hp : lookupA (call st command payload T msgUuid now
            none).state.pendingCalls (jsKey cmd.uuid) with
        | some entry =>
            have : (handleMessage (call st command payload T msgUuid now
                none).state (some cmd) m.now).state.pendingCalls
                = eraseA (call st command payload T msgUuid now
                  none).state.pendingCalls (jsKey cmd.uuid) := by
              simp [handleMessage, hp]
            rw [this, lookupA_eraseA_ne _ _ _ (Ne.symm hkey)]
            exact hself
        | none =>
            have := handleMessage_no_pending (call st command payload T
              msgUuid now none).state cmd m.now hp
            rw [this.2]
            exact hself
  · intro cmd laterNow hkey
    have hp : lookupA (call st command payload T msgUuid now
        none).state.pendingCalls (jsKey cmd.uuid)
        = some { timer := none } := by rw [hkey]; exact hself
    constructor
    · simp [handleMessage, hp]
    · have : (handleMessage (call st command payload T msgUuid now
          none).state (some cmd) laterNow).state.pendingCalls
          = eraseA (call st command payload T msgUuid now
            none).state.pendingCalls (jsKey cmd.uuid) := by
        simp [handleMessage, hp]
      rw [this, hkey]
      exact lookupA_eraseA_self _ _

/-- A success reply eventually arriving for the unbounded call `"u3"`. -/
def u3Reply : Cmd :=
  { uuid := some "u3", pluginID := none, type := some "response",
    payload := some (.str "file"), timestamp := some 50,
    status := some "success", error := none }

/-- C9 witness: `call("dialog", {}, 0)` registers a timerless entry that
survives an unrelated reply and is settled and evicted by its own
reply. -/
theorem call_nonpositive_timeout_witness :
    lookupA (call okState "dialog" (.obj .nil) 0 "u3" 1
        none).state.pendingCalls "u3" = some { timer := none } ∧
    lookupA (handleMessage (call okState "dialog" (.obj .nil) 0 "u3" 1
        none).state (some strayReply) 5).state.pendingCalls "u3"
      = some { timer := none } ∧
    (handleMessage (call okState "dialog" (.obj .nil) 0 "u3" 1
        none).state (some u3Reply) 50).completions.length = 1 ∧
    lookupA (handleMessage (call okState "dialog" (.obj .nil) 0 "u3" 1
        none).state (some u3Reply) 50).state.pendingCalls "u3" = none := by
  have h := call_nonpositive_timeout_never_expires okState "dialog"
    (.obj .nil) 0 "u3" 1 (by decide)
  refine ⟨h.1, ?_, (h.2.2 u3Reply 50 rfl).1, (h.2.2 u3Reply 50 rfl).2⟩
  exact h.2.1 { parsed := some strayReply, now := 5 }
    (by intro cmd hc; injection hc with hcc; subst hcc; decide)
